import Mathlib

/-!
# Verification of the client-side sync/render engine

Shallow embedding of the client-side JavaScript of the Inventory-and-Stock-Market
repository (`static/js/platform.js` and `static/js/animation.js`), together with
proofs about the embedded operations.

Conventions of the embedding:
* JS numbers are modelled as exact rationals (`ℚ`); the claims under study only
  involve values on which IEEE-754 arithmetic and exact rational arithmetic agree
  to the stated precision.
* A JS value that may be `undefined` (a possibly-missing snapshot field) is an
  `Option`; reading a property of `undefined`, or calling a number method on a
  non-number, raises `TypeError`, modelled with `Except`.
* Wall-clock time is a `ℕ` of milliseconds; `setTimeout(f, d)` at time `t`
  appends a pending action with fire time `t + d`.
* DOM elements touched by the embedded renderers are explicit fields of a
  `World` record; every DOM assignment (`textContent`/`innerHTML`/value) is also
  appended to a `writes` log so that "the renderer wrote to the DOM" is
  observable even when the written string equals the string already displayed.
  Semantic events pushed to the animation sink are logged in `events`.
-/

namespace Nexus

/-- The three flow states of `NexusAnimation.config.state`
(`'idle' | 'processing' | 'alert'`, animation.js:18). -/
inductive FlowState where
  | idle
  | processing
  | alert
deriving Repr, DecidableEq

/-- The mutable `this.config` record of `NexusAnimation` (animation.js:12-19).
`particleCount` and `lineDistance` are carried for completeness; the claims
concern `baseSpeed`, `pulseIntensity`, `glowIntensity` and `state`. -/
structure Config where
  particleCount : ℕ
  lineDistance : ℚ
  baseSpeed : ℚ
  pulseIntensity : ℚ
  glowIntensity : ℚ
  state : FlowState
deriving Repr, DecidableEq

/-- A callback registered with `setTimeout` inside `NexusAnimation`:
restoring the captured base speed (animation.js:62-64), reverting the flow
state (animation.js:104), or restoring the captured hue (animation.js:111). -/
inductive PendingAction where
  | restoreSpeed (orig : ℚ)
  | setFlow (s : FlowState)
  | restoreHue (orig : ℚ)
deriving Repr, DecidableEq

/-- The part of the `NexusAnimation` object state the claims observe:
the config, the hue (animation.js:8), and the queue of scheduled
`setTimeout` callbacks tagged with their absolute fire time. -/
structure AnimState where
  config : Config
  hue : ℚ
  pending : List (ℕ × PendingAction)
deriving Repr, DecidableEq

/-- The constructor state of `new NexusAnimation()` (animation.js:2-22):
`hue = 220`, `config = {particleCount: 80, lineDistance: 180, baseSpeed: 0.4,
pulseIntensity: 0, glowIntensity: 0, state: 'idle'}`, nothing scheduled. -/
def initAnimState : AnimState :=
  { config := { particleCount := 80, lineDistance := 180, baseSpeed := 2/5,
                pulseIntensity := 0, glowIntensity := 0, state := FlowState.idle }
    hue := 220
    pending := [] }

/-- `NexusAnimation.setFlowState(state)` (animation.js:71-86): records the new
state and sets the speed/glow profile of that state. -/
def setFlowState (c : Config) (s : FlowState) : Config :=
  match s with
  | FlowState.processing =>
      { c with state := s, baseSpeed := 4/5, glowIntensity := 1/2 }
  | FlowState.alert =>
      { c with state := s, baseSpeed := 6/5, glowIntensity := 1 }
  | FlowState.idle =>
      { c with state := s, baseSpeed := 2/5, glowIntensity := 0 }

/-- `NexusAnimation.triggerPulse(intensity)` (animation.js:57-65): overwrites
`pulseIntensity` with the new intensity (assignment, not accumulation),
captures the current base speed, multiplies the base speed by 3, and schedules
restoration of the captured speed 500 ms later. `t` is the current time. -/
def triggerPulse (st : AnimState) (t : ℕ) (intensity : ℚ) : AnimState :=
  let orig := st.config.baseSpeed
  { st with
      config := { st.config with pulseIntensity := intensity, baseSpeed := orig * 3 }
      pending := st.pending ++ [(t + 500, PendingAction.restoreSpeed orig)] }

/-- The event kinds accepted by `NexusAnimation.onEvent` (animation.js:91-114)
plus `refresh`, which `fetchApi` fires (platform.js:23) and which matches no
case of the switch. -/
inductive EventKind where
  | sale
  | market_update
  | low_stock
  | ai_insight
  | refresh
deriving Repr, DecidableEq

/-- The payload (`data`) of an `onEvent` call.  Only `data.volatility` is read
by the sink (animation.js:99); a missing field is `none` (JS `undefined`). -/
structure EventData where
  volatility : Option ℚ
deriving Repr, DecidableEq

/-- JS comparison `o > c` where `o` may be `undefined`:
`undefined > c` is `false`. -/
def jsGTq (o : Option ℚ) (c : ℚ) : Bool :=
  match o with
  | none => false
  | some v => decide (v > c)

/-- `NexusAnimation.onEvent(eventType, data)` (animation.js:91-114) at current
time `t`.  `sale` pulses 20; `market_update` pulses 10 then moves the flow
state to `processing` iff `data.volatility > 2`, otherwise to `idle`;
`low_stock` enters `alert` synchronously and schedules a revert to `idle`
5000 ms later; `ai_insight` pulses 25 and shifts the hue to 280 with a
restore of the captured hue scheduled 2000 ms later; `refresh` matches no
switch case and does nothing. -/
def onEvent (st : AnimState) (t : ℕ) (ev : EventKind) (data : EventData) : AnimState :=
  match ev with
  | EventKind.sale => triggerPulse st t 20
  | EventKind.market_update =>
      let st1 := triggerPulse st t 10
      if jsGTq data.volatility 2 then
        { st1 with config := setFlowState st1.config FlowState.processing }
      else
        { st1 with config := setFlowState st1.config FlowState.idle }
  | EventKind.low_stock =>
      { st with
          config := setFlowState st.config FlowState.alert
          pending := st.pending ++ [(t + 5000, PendingAction.setFlow FlowState.idle)] }
  | EventKind.ai_insight =>
      let oldHue := st.hue
      let st1 := triggerPulse st t 25
      { st1 with hue := 280
                 pending := st1.pending ++ [(t + 2000, PendingAction.restoreHue oldHue)] }
  | EventKind.refresh => st

/-- The state effect of one animation frame (animation.js:176-182): the pulse
intensity decays by the factor 0.95 whenever it is positive.  (The rest of
`animate()` draws particles and does not touch `config.pulseIntensity`,
`config.state` or `pending`.) -/
def animateFrame (st : AnimState) : AnimState :=
  if st.config.pulseIntensity > 0 then
    { st with config := { st.config with
        pulseIntensity := st.config.pulseIntensity * (19/20) } }
  else st

/-- `k` successive animation frames with no intervening event. -/
def framesN (st : AnimState) : ℕ → AnimState
  | 0 => st
  | k + 1 => framesN (animateFrame st) k

/-- Running one scheduled `setTimeout` callback. -/
def firePending (st : AnimState) (a : PendingAction) : AnimState :=
  match a with
  | PendingAction.restoreSpeed orig =>
      { st with config := { st.config with baseSpeed := orig } }
  | PendingAction.setFlow s =>
      { st with config := setFlowState st.config s }
  | PendingAction.restoreHue orig =>
      { st with hue := orig }

/-- The event loop reaching time `now`: all callbacks whose fire time is
`≤ now` run (in queue order) and are removed from the queue. -/
def fireDue (st : AnimState) (now : ℕ) : AnimState :=
  let due := st.pending.filter (fun p => p.1 ≤ now)
  let rest := st.pending.filter (fun p => ¬ p.1 ≤ now)
  due.foldl (fun s p => firePending s p.2) { st with pending := rest }

end Nexus

namespace JsNum

/-- Two-digit zero-padded decimal string. -/
def pad2 (n : ℕ) : String :=
  if n < 10 then "0" ++ toString n else toString n

/-- Three-digit zero-padded decimal string. -/
def pad3 (n : ℕ) : String :=
  if n < 10 then "00" ++ toString n
  else if n < 100 then "0" ++ toString n
  else toString n

/-- Insert a thousands separator after every third character of a reversed
digit list (worker for `groupInt`). -/
def groupRev : List Char → List Char
  | a :: b :: c :: d :: rest => a :: b :: c :: ',' :: groupRev (d :: rest)
  | l => l

/-- A natural number printed with en-US thousands separators, as
`Number.prototype.toLocaleString` prints integer parts. -/
def groupInt (n : ℕ) : String :=
  String.mk ((groupRev (toString n).toList.reverse).reverse)

/-- A fraction numerator `f ∈ [1, 999]` (thousandths) printed with trailing
zeros removed, e.g. `500 ↦ "5"`, `250 ↦ "25"`, `123 ↦ "123"`. -/
def fracStr (f : ℕ) : String :=
  if f % 10 ≠ 0 then pad3 f
  else if f % 100 ≠ 0 then pad2 (f / 10)
  else toString (f / 100)

/-- `Number.prototype.toFixed(2)`.  The argument is rounded to hundredths
(the embedded renderers only ever format values that are exact hundredths,
where IEEE-754 `toFixed` and this rational rounding agree). -/
def formatFixed2 (q : ℚ) : String :=
  let n : ℤ := ⌊q * 100 + 1/2⌋
  let m := n.natAbs
  (if n < 0 then "-" else "") ++ toString (m / 100) ++ "." ++ pad2 (m % 100)

/-- `Number.prototype.toFixed(2)` lifted to a possibly-missing field:
`undefined.toFixed` raises `TypeError`. -/
def jsToFixed2 (o : Option ℚ) : Except String String :=
  match o with
  | none => Except.error "TypeError"
  | some q => Except.ok (formatFixed2 q)

/-- `toLocaleString(undefined, { minimumFractionDigits: 2 })` in the default
en-US locale, for values with at most two decimal places (all values the
claims exercise): grouped integer part and exactly two fraction digits. -/
def toLocaleMin2 (q : ℚ) : String :=
  let n : ℤ := ⌊q * 100 + 1/2⌋
  let m := n.natAbs
  (if n < 0 then "-" else "") ++ groupInt (m / 100) ++ "." ++ pad2 (m % 100)

/-- Plain `toLocaleString()` in the default en-US locale: grouped integer
part, at most three fraction digits (the locale default), trailing zeros
dropped.  Values beyond three decimals do not occur in the claims. -/
def toLocaleStr (q : ℚ) : String :=
  let n : ℤ := ⌊q * 1000 + 1/2⌋
  let m := n.natAbs
  let f := m % 1000
  (if n < 0 ∧ m ≠ 0 then "-" else "") ++ groupInt (m / 1000)
    ++ (if f = 0 then "" else "." ++ fracStr f)

/-- JS `String(x)` for a number assigned to `textContent`: no grouping, up
to three fraction digits (full double precision does not occur in the
claims, which use integers and short decimals). -/
def qToStr (q : ℚ) : String :=
  let n : ℤ := ⌊q * 1000 + 1/2⌋
  let m := n.natAbs
  let f := m % 1000
  (if n < 0 ∧ m ≠ 0 then "-" else "") ++ toString (m / 1000)
    ++ (if f = 0 then "" else "." ++ fracStr f)

/-- JS `String(x)` where `x` may be `undefined` (missing field):
`String(undefined) = "undefined"`. -/
def jsDisplay (o : Option ℚ) : String :=
  match o with
  | none => "undefined"
  | some q => qToStr q

/-- JS `x || 0` for a numeric-or-missing value: `undefined` becomes `0`
(and `0` stays `0`). -/
def jsOr0 (o : Option ℚ) : ℚ :=
  match o with
  | none => 0
  | some v => v

/-- JS `x || fallback` for a string-or-missing value. -/
def jsOrStr (o : Option String) (fallback : String) : String :=
  match o with
  | none => fallback
  | some s => if s = "" then fallback else s

/-- Digit list to natural number. -/
def digitsToNat (ds : List Char) : ℕ :=
  ds.foldl (fun a c => a * 10 + (c.toNat - 48)) 0

/-- `parseFloat` on a plain decimal string (optional sign, integer part,
optional fraction; trailing garbage ignored; exponents, which the claims
never use, are not modelled).  `none` is JS `NaN`. -/
def jsParseFloat (s : String) : Option ℚ :=
  let cs := s.toList.dropWhile Char.isWhitespace
  let sgn : ℚ := match cs with
    | '-' :: _ => -1
    | _ => 1
  let cs1 : List Char := match cs with
    | '-' :: rest => rest
    | '+' :: rest => rest
    | _ => cs
  let ip := cs1.takeWhile Char.isDigit
  let rest1 := cs1.dropWhile Char.isDigit
  match rest1 with
  | '.' :: rest2 =>
      let fp := rest2.takeWhile Char.isDigit
      if ip.isEmpty && fp.isEmpty then none
      else some (sgn * ((digitsToNat ip : ℚ) + (digitsToNat fp : ℚ) / ((10 : ℚ) ^ fp.length)))
  | _ => if ip.isEmpty then none else some (sgn * (digitsToNat ip : ℚ))

/-- JS `ToNumber` on a string, the coercion loose equality applies when a
string is compared with a number: an empty or all-whitespace string is `0`,
a plain decimal numeral (optional sign, optional fraction, nothing else) is
its value, anything else is `NaN` (`none`).  Exponent and hex forms, which
the rendered strings never take, are not modelled. -/
def jsToNumber (s : String) : Option ℚ :=
  let cs0 := s.toList.dropWhile Char.isWhitespace
  let cs := (cs0.reverse.dropWhile Char.isWhitespace).reverse
  if cs.isEmpty then some 0
  else
    let sgn : ℚ := match cs with
      | '-' :: _ => -1
      | _ => 1
    let cs1 : List Char := match cs with
      | '-' :: rest => rest
      | '+' :: rest => rest
      | _ => cs
    let ip := cs1.takeWhile Char.isDigit
    let rest1 := cs1.dropWhile Char.isDigit
    match rest1 with
    | [] => if ip.isEmpty then none else some (sgn * (digitsToNat ip : ℚ))
    | '.' :: rest2 =>
        let fp := rest2.takeWhile Char.isDigit
        let rest3 := rest2.dropWhile Char.isDigit
        if ip.isEmpty && fp.isEmpty then none
        else if rest3.isEmpty then
          some (sgn * ((digitsToNat ip : ℚ) + (digitsToNat fp : ℚ) / ((10 : ℚ) ^ fp.length)))
        else none
    | _ => none

end JsNum

namespace Platform

open JsNum

/-- A JSON body successfully parsed from a response.  `withError msg` is a
body carrying an application-level `{error: ...}` field; `payload` is any
other JSON value, kept opaque, since `fetchApi` itself never inspects the
parsed body. -/
inductive Body where
  | withError (msg : String)
  | payload (data : String)
deriving Repr, DecidableEq

/-- One attempt to `fetch(this.apiBase + endpoint)` as observed by the
client: either the transport fails (the `fetch` promise rejects — failure
class (a)), or an HTTP response arrives with its `ok` flag (`false` = non-2xx
— class (b)) and a body that either fails JSON parsing (`none` — class (c))
or parses to a `Body` (which may carry an `error` field — class (d)). -/
inductive FetchAttempt where
  | transportFailure
  | http (ok : Bool) (body : Option Body)
deriving Repr, DecidableEq

/-- The try-block of `Platform.fetchApi` (platform.js:24-27): a transport
failure rejects; `if (!response.ok) throw new Error('Network response was
not ok')`; `await response.json()` rejects on a malformed body, and
otherwise produces the parsed body unchanged. -/
def fetchApiTry (a : FetchAttempt) : Except String Body :=
  match a with
  | FetchAttempt.transportFailure => Except.error "NetworkError"
  | FetchAttempt.http ok body =>
      if !ok then Except.error "Network response was not ok"
      else match body with
        | none => Except.error "SyntaxError: unexpected JSON"
        | some b => Except.ok b

/-- `Platform.fetchApi(endpoint)` (platform.js:22-32).  Any exception from
the try-block is caught, logged (`console.error`), and converted to `null`;
the returned pair is (result, whether a failure was logged).  The function
is total: nothing escapes the catch.  The `refresh` notification fired on
entry (platform.js:23) is the sink call `Nexus.onEvent _ _ .refresh`,
a no-op on the sink state. -/
def fetchApi (a : FetchAttempt) : Option Body × Bool :=
  match fetchApiTry a with
  | Except.error _ => (none, true)
  | Except.ok b => (some b, false)

end Platform

namespace Platform

open JsNum

/-- A DOM element whose `textContent` the heartbeat renderers update;
`changed` is the presence of the `value-update` class that `renderStats`
adds when it writes (platform.js:88).  (Its removal by a 1-second
`setTimeout` is cosmetic and not modelled.) -/
structure TextEl where
  text : String
  changed : Bool
deriving Repr, DecidableEq

/-- The `#productSelect` dropdown (platform.js:132-142): the value attributes
of its `<option>`s in document order, and the currently selected value.
Assigning `select.value = v` selects `v` when some option carries it and
otherwise leaves no option selected (value `""`). -/
structure SelectEl where
  options : List String
  value : String
deriving Repr, DecidableEq

/-- The DOM regions and logs the claims observe.  String fields hold the
committed `textContent`/`innerHTML` of the corresponding element;
`statValuesCount` is the number of `.stat-value` elements on the page
(platform.js:231-232); `salesRowCount` the number of `<tr>`s in
`#salesTable tbody` (platform.js:147); `writes` logs every DOM assignment
as (element, value) so an assignment is observable even when it rewrites an
identical string; `events` logs the semantic event kinds pushed to
`window.nexusAnimation.onEvent`. -/
structure World where
  totalProducts : TextEl
  lowStock : TextEl
  todayRevenue : TextEl
  marketValue : String
  marketSub : String
  recentSales : String
  lastUpdated : String
  statValuesCount : ℕ
  globalPulse : String
  securityBadge : String
  productSelect : SelectEl
  salesTableHtml : String
  salesRowCount : ℕ
  marketStatsHtml : String
  writes : List (String × String)
  events : List String
deriving Repr, DecidableEq

/-- The `stats` region of a realtime snapshot (read by platform.js:78-83);
each field may be absent. -/
structure Stats where
  total_products : Option ℚ
  low_stock : Option ℚ
  today_revenue : Option ℚ
deriving Repr, DecidableEq

/-- A value of the `els` object literal in `renderStats` (platform.js:79-83):
the two counts are the raw snapshot fields (possibly `undefined`); the
revenue entry is an already-formatted string. -/
inductive ElsVal where
  | numField (v : Option ℚ)
  | strVal (s : String)
deriving Repr, DecidableEq

/-- The JS loose inequality `el.textContent != val` of platform.js:87.
Against a string value both sides are strings and the comparison is exact;
against `undefined` a string is never loosely equal, so the test is always
true; against a number the string is coerced with `ToNumber` and compared
numerically (a `NaN` coercion compares unequal). -/
def jsLooseNe (text : String) : ElsVal → Bool
  | ElsVal.strVal s => text ≠ s
  | ElsVal.numField none => true
  | ElsVal.numField (some q) =>
      match jsToNumber text with
      | none => true
      | some x => decide (x ≠ q)

/-- `String(val)` as assigned by `el.textContent = val` (platform.js:89):
`"undefined"` for a missing field, the numeral otherwise. -/
def elsValStr : ElsVal → String
  | ElsVal.strVal s => s
  | ElsVal.numField o => jsDisplay o

/-- `Platform.renderStats(stats)` (platform.js:78-98).  The `els` object
literal is evaluated first, so `stats.total_products` on a missing `stats`
and `stats.today_revenue.toFixed(2)` on a missing `today_revenue` raise
`TypeError` before any DOM write.  Then each entry writes its element only
when the loose test `el.textContent != val` holds — note the two count
entries hold the raw (possibly `undefined`) fields, so a missing count is
rewritten on every cycle — adding the `value-update` marker, and a
differing `today-revenue` additionally raises a `sale` event
(platform.js:93-95). -/
def renderStats (stats : Option Stats) (w : World) : Except (String × World) World :=
  match stats with
  | none => Except.error ("TypeError", w)
  | some s =>
      match s.today_revenue with
      | none => Except.error ("TypeError", w)
      | some r =>
          let v1 := ElsVal.numField s.total_products
          let v2 := ElsVal.numField s.low_stock
          let v3 := ElsVal.strVal ("$" ++ formatFixed2 r)
          let w1 :=
            if jsLooseNe w.totalProducts.text v1 then
              { w with totalProducts := { text := elsValStr v1, changed := true }
                       writes := w.writes ++ [("total-products", elsValStr v1)] }
            else w
          let w2 :=
            if jsLooseNe w1.lowStock.text v2 then
              { w1 with lowStock := { text := elsValStr v2, changed := true }
                        writes := w1.writes ++ [("low-stock", elsValStr v2)] }
            else w1
          let w3 :=
            if jsLooseNe w2.todayRevenue.text v3 then
              { w2 with todayRevenue := { text := elsValStr v3, changed := true }
                        writes := w2.writes ++ [("today-revenue", elsValStr v3)]
                        events := w2.events ++ ["sale"] }
            else w2
          Except.ok w3

/-- The `market` region of a realtime snapshot (read by platform.js:100-108).
`errorField` is the truthiness of `market.error`; the remaining fields are
the ones the widget displays. -/
structure Market where
  errorField : Bool
  name : String
  price : ℚ
  change : ℚ
  change_percent : ℚ
deriving Repr, DecidableEq

/-- `Platform.renderMarketWidget(market)` (platform.js:100-108): returns
untouched when the market region is absent or carries an error; otherwise
writes the widget value and subtitle unconditionally.  The subtitle's inner
`<span style=...>` colour markup is presentation-only and is embedded as the
rendered text `name (±x%)`. -/
def renderMarketWidget (market : Option Market) (w : World) : World :=
  match market with
  | none => w
  | some m =>
      if m.errorField then w
      else
        let v := toLocaleStr m.price
        let sign := if m.change ≥ 0 then "+" else ""
        let sub := m.name ++ " (" ++ sign ++ qToStr m.change_percent ++ "%)"
        { w with marketValue := v
                 marketSub := sub
                 writes := w.writes ++ [("market-widget-value", v), ("market-widget-sub", sub)] }

/-- One entry of the `recent_sales` array (read by platform.js:115-122
and platform.js:266-273); the row fields are taken as present, since the
claims only exercise missing-ness of the array itself. -/
structure SaleRow where
  product_name : String
  date : String
  quantity : ℚ
  total_price : ℚ
  sold_by : String
deriving Repr, DecidableEq

/-- One `<tr class="new-row">` of `renderRecentSalesMini` (platform.js:115-122);
the template literal's indentation whitespace is normalized away, consistently
on both sides of the equality check the renderer performs. -/
def saleRowHtmlMini (r : SaleRow) : String :=
  "<tr class=\"new-row\"><td>" ++ r.product_name ++ "</td><td>" ++ r.date
    ++ "</td><td>" ++ qToStr r.quantity ++ "</td><td>$" ++ formatFixed2 r.total_price
    ++ "</td><td>" ++ r.sold_by ++ "</td></tr>"

/-- The placeholder row of `renderRecentSalesMini` (platform.js:123). -/
def noRecentSalesHtml : String :=
  "<tr><td colspan=\"5\" style=\"text-align: center;\">No recent sales</td></tr>"

/-- The new tbody content computed by `renderRecentSalesMini`:
`sales.map(...).join('') || placeholder` — the placeholder replaces the
empty string produced by an empty array. -/
def miniHtml (rows : List SaleRow) : String :=
  let joined := String.join (rows.map saleRowHtmlMini)
  if joined = "" then noRecentSalesHtml else joined

/-- `Platform.renderRecentSalesMini(sales)` (platform.js:110-128):
`sales.map` on a missing array raises `TypeError`; otherwise the tbody is
rewritten only when the trimmed new HTML differs from the trimmed current
HTML (platform.js:125-127). -/
def renderRecentSalesMini (sales : Option (List SaleRow)) (w : World) :
    Except (String × World) World :=
  match sales with
  | none => Except.error ("TypeError", w)
  | some rows =>
      let newHtml := miniHtml rows
      if w.recentSales.trim ≠ newHtml.trim then
        Except.ok { w with recentSales := newHtml
                           writes := w.writes ++ [("recent-sales-tbody", newHtml)] }
      else Except.ok w

/-- The JSON snapshot of `GET /api/realtime-updates` as `updateHeartbeat`
reads it: the truthiness of `data.error` plus the four regions it renders. -/
structure RealtimeData where
  errorField : Bool
  stats : Option Stats
  market : Option Market
  recent_sales : Option (List SaleRow)
  timestamp : Option String
deriving Repr, DecidableEq

/-- `Platform.updateHeartbeat()` (platform.js:64-76) on the dashboard path,
applied to the already-resolved fetch result (`none` = the fetch failed and
`fetchApi` returned `null`).  `if (!data || data.error) return;` skips the
cycle; otherwise the three renderers run in order and the timestamp is
written.  An exception aborts the cycle at the throw point, keeping the DOM
writes already committed (carried in the error). -/
def updateHeartbeat (data : Option RealtimeData) (w : World) :
    Except (String × World) World :=
  match data with
  | none => Except.ok w
  | some d =>
      if d.errorField then Except.ok w
      else
        match renderStats d.stats w with
        | Except.error e => Except.error e
        | Except.ok w1 =>
            let w2 := renderMarketWidget d.market w1
            match renderRecentSalesMini d.recent_sales w2 with
            | Except.error e => Except.error e
            | Except.ok w3 =>
                let ts := "Live: " ++ (match d.timestamp with
                  | none => "undefined"
                  | some s => s)
                Except.ok { w3 with lastUpdated := ts
                                    writes := w3.writes ++ [("last-updated", ts)] }

/-- A run of successive heartbeat ticks (the 5-second `setInterval` of
platform.js:56), one already-resolved fetch result per tick.  A tick whose
handler throws only rejects that tick's promise: the DOM keeps the writes
committed before the throw and the next tick proceeds independently. -/
def heartbeatRun : List (Option RealtimeData) → World → World
  | [], w => w
  | d :: rest, w =>
      match updateHeartbeat d w with
      | Except.ok w1 => heartbeatRun rest w1
      | Except.error (_, w1) => heartbeatRun rest w1

end Platform

namespace Platform

open JsNum

/-- One product of `GET /api/sales` (read by platform.js:136-139).  `pid`
embeds the `_id` field. -/
structure Product where
  pid : String
  name : String
  price : ℚ
  quantity : ℚ
deriving Repr, DecidableEq

/-- One transaction row of `GET /api/sales` (read by platform.js:148-158);
`supplier_name`/`customer_name` may be absent (`|| 'N/A'`). -/
structure Txn where
  date : String
  product_name : String
  supplier_name : Option String
  customer_name : Option String
  quantity : ℚ
  total_price : ℚ
  sold_by : String
deriving Repr, DecidableEq

/-- The JSON snapshot of `GET /api/sales` as `renderSales` reads it. -/
structure SalesData where
  products : Option (List Product)
  transactions : Option (List Txn)
deriving Repr, DecidableEq

/-- One `<option>` of the product dropdown (platform.js:136-140), whitespace
normalized. -/
def productOptionHtml (p : Product) : String :=
  "<option value=\"" ++ p.pid ++ "\" data-price=\"" ++ qToStr p.price
    ++ "\" data-stock=\"" ++ qToStr p.quantity ++ "\">" ++ p.name
    ++ " (Stock: " ++ qToStr p.quantity ++ ")</option>"

/-- One `<tr>` of the transactions table (platform.js:148-158), whitespace
normalized; `index` is the 0-based position. -/
def txnRowHtml (index : ℕ) (t : Txn) : String :=
  "<tr><td>" ++ toString (index + 1) ++ "</td><td>" ++ t.date ++ "</td><td>"
    ++ t.product_name ++ "</td><td>" ++ jsOrStr t.supplier_name "N/A"
    ++ "</td><td>" ++ jsOrStr t.customer_name "N/A" ++ "</td><td>"
    ++ qToStr t.quantity ++ "</td><td>$" ++ formatFixed2 t.total_price
    ++ "</td><td>" ++ t.sold_by ++ "</td></tr>"

/-- The placeholder row of the transactions table (platform.js:159). -/
def noTransactionsHtml : String :=
  "<tr><td colspan=\"8\" style=\"text-align: center;\">No transactions found</td></tr>"

/-- Assigning `select.value = v` (platform.js:141): when some option carries
value `v` it becomes selected; otherwise no option is selected and the
select's value reads back as the empty string. -/
def selectSetValue (sel : SelectEl) (v : String) : SelectEl :=
  if v ∈ sel.options then { sel with value := v } else { sel with value := "" }

/-- `Platform.renderSales(data)` (platform.js:130-166).  The dropdown branch
captures `productSelect.value`, replaces the options with the default
`Choose a product...` option (value `""`, marked selected) followed by one
option per product, and re-assigns the captured value when it is truthy.
The transactions branch replaces the table body unconditionally (placeholder
for an empty array) and raises a `sale` event when the new transaction count
exceeds the previous `<tr>` count of the tbody (platform.js:147, 162-164);
since the placeholder is itself a `<tr>`, an empty render leaves a row count
of 1, which `salesRowCount` tracks.  A missing `products` or `transactions`
array raises `TypeError` at its `.map`. -/
def renderSales (data : SalesData) (w : World) : Except (String × World) World :=
  match data.products with
  | none => Except.error ("TypeError", w)
  | some prods =>
      let currentSelected := w.productSelect.value
      let newOptions := "" :: prods.map (fun p => p.pid)
      let selAfterHtml : SelectEl := { options := newOptions, value := "" }
      let sel :=
        if currentSelected ≠ "" then selectSetValue selAfterHtml currentSelected
        else selAfterHtml
      let w1 := { w with productSelect := sel
                         writes := w.writes ++ [("productSelect", sel.value)] }
      match data.transactions with
      | none => Except.error ("TypeError", w1)
      | some txns =>
          let joined := String.join (txns.enum.map (fun it => txnRowHtml it.1 it.2))
          let newHtml := if joined = "" then noTransactionsHtml else joined
          let w2 := { w1 with salesTableHtml := newHtml
                              salesRowCount := if txns.length = 0 then 1 else txns.length
                              writes := w1.writes ++ [("salesTable-tbody", newHtml)] }
          let w3 :=
            if txns.length > w.salesRowCount then
              { w2 with events := w2.events ++ ["sale"] }
            else w2
          Except.ok w3

/-- One entry of the `global_market` array (read by platform.js:294-307). -/
structure PulseItem where
  name : String
  symbol : String
  price : ℚ
  change : ℚ
  change_percent : ℚ
  color : String
deriving Repr, DecidableEq

/-- One card of `renderGlobalPulse` (platform.js:294-307), markup collapsed
to the data it displays. -/
def pulseCardHtml (i : PulseItem) : String :=
  "<div class=\"pulse-card\">" ++ i.name ++ " " ++ i.symbol ++ " "
    ++ toLocaleStr i.price ++ " " ++ (if i.change > 0 then "+" else "")
    ++ formatFixed2 i.change_percent ++ "%</div>"

/-- `Platform.renderGlobalPulse(marketData)` (platform.js:290-308): rewrites
the grid unconditionally. -/
def renderGlobalPulse (items : List PulseItem) (w : World) : World :=
  let html := String.join (items.map pulseCardHtml)
  { w with globalPulse := html
           writes := w.writes ++ [("global-pulse-grid", html)] }

/-- The `security` region of the summary snapshot (read by
platform.js:310-329). -/
structure SecurityInfo where
  status : String
deriving Repr, DecidableEq

/-- `Platform.updateSecurityUI(security)` (platform.js:310-329): writes the
badge and, when the status is not `SECURE`, pushes a `low_stock` event to
the sink (platform.js:324-328).  The 3-second scanner pulse is cosmetic and
not modelled. -/
def updateSecurityUI (sec : SecurityInfo) (w : World) : World :=
  let w1 := { w with securityBadge := sec.status
                     writes := w.writes ++ [("security-status-badge", sec.status)] }
  if sec.status ≠ "SECURE" then { w1 with events := w1.events ++ ["low_stock"] }
  else w1

/-- The result of the `/market/search?symbol=^GSPC` sub-fetch issued inside
`renderDashboard` (platform.js:244), as the `.then` callback reads it. -/
structure MarketSearch where
  errorField : Bool
  price : ℚ
  change : ℚ
  change_percent : ℚ
deriving Repr, DecidableEq

/-- The `.then` callback on the market sub-fetch inside `renderDashboard`
(platform.js:244-262): on a present, error-free result it rewrites the
widget unconditionally and pushes a `market_update` event whose volatility
payload is `Math.abs(change_percent)`; otherwise it writes `Unavailable`.
The subtitle's colour markup is embedded as its rendered text. -/
def renderDashMarketWidget (mkt : Option MarketSearch) (w : World) : World :=
  match mkt with
  | some m =>
      if !m.errorField then
        let v := toLocaleStr m.price
        let sign := if m.change ≥ 0 then "+" else ""
        let sub := "S&P 500 (" ++ sign ++ qToStr m.change_percent ++ "%)"
        { w with marketValue := v
                 marketSub := sub
                 writes := w.writes ++ [("market-widget-value", v), ("market-widget-sub", sub)]
                 events := w.events ++ ["market_update"] }
      else
        { w with marketValue := "Unavailable"
                 writes := w.writes ++ [("market-widget-value", "Unavailable")] }
  | none =>
      { w with marketValue := "Unavailable"
               writes := w.writes ++ [("market-widget-value", "Unavailable")] }

/-- The JSON snapshot of `GET /api/summary` as `renderDashboard` reads it. -/
structure DashboardData where
  total_products : Option ℚ
  low_stock : Option ℚ
  today_revenue : Option ℚ
  recent_sales : Option (List SaleRow)
  global_market : Option (List PulseItem)
  security : Option SecurityInfo
deriving Repr, DecidableEq

/-- One `<tr>` of the dashboard's recent-sales table (platform.js:267-273):
as `saleRowHtmlMini` but without the `new-row` class. -/
def saleRowHtmlDash (r : SaleRow) : String :=
  "<tr><td>" ++ r.product_name ++ "</td><td>" ++ r.date ++ "</td><td>"
    ++ qToStr r.quantity ++ "</td><td>$" ++ formatFixed2 r.total_price
    ++ "</td><td>" ++ r.sold_by ++ "</td></tr>"

/-- The dashboard recent-sales tbody content (platform.js:266-274):
`data.recent_sales.map(...).join('') || placeholder`. -/
def dashSalesHtml (rows : List SaleRow) : String :=
  let joined := String.join (rows.map saleRowHtmlDash)
  if joined = "" then noRecentSalesHtml else joined

/-- `Platform.renderDashboard(data)` (platform.js:230-288).  When at least
three `.stat-value` elements exist, their texts are assigned
unconditionally, in order, with no comparison against the current text and
no `value-update` marker; `data.today_revenue.toFixed(2)` raises `TypeError`
after the first two writes when the field is missing; a positive `low_stock`
pushes a `low_stock` event.  The recent-sales tbody is then rewritten
unconditionally (`TypeError` on a missing array), `global_market` and
`security` are rendered when present, and finally the `.then` callback of
the market sub-fetch (whose resolved value is the `mkt` argument) runs.
`loadAIInsights` only touches the AI text elements, which no claim observes,
and is not modelled. -/
def renderDashboard (data : DashboardData) (mkt : Option MarketSearch) (w : World) :
    Except (String × World) World :=
  let statsStep : Except (String × World) World :=
    if 3 ≤ w.statValuesCount then
      let v1 := jsDisplay data.total_products
      let wA := { w with totalProducts := { w.totalProducts with text := v1 }
                         writes := w.writes ++ [("stat-value-0", v1)] }
      let v2 := jsDisplay data.low_stock
      let wB := { wA with lowStock := { wA.lowStock with text := v2 }
                          writes := wA.writes ++ [("stat-value-1", v2)] }
      match data.today_revenue with
      | none => Except.error ("TypeError", wB)
      | some r =>
          let v3 := "$" ++ formatFixed2 r
          let wC := { wB with todayRevenue := { wB.todayRevenue with text := v3 }
                              writes := wB.writes ++ [("stat-value-2", v3)] }
          if Nexus.jsGTq data.low_stock 0 then
            Except.ok { wC with events := wC.events ++ ["low_stock"] }
          else Except.ok wC
    else Except.ok w
  match statsStep with
  | Except.error e => Except.error e
  | Except.ok w1 =>
      match data.recent_sales with
      | none => Except.error ("TypeError", w1)
      | some rows =>
          let newHtml := dashSalesHtml rows
          let w2 := { w1 with recentSales := newHtml
                              writes := w1.writes ++ [("recent-sales-tbody", newHtml)] }
          let w3 := match data.global_market with
            | some gm => renderGlobalPulse gm w2
            | none => w2
          let w4 := match data.security with
            | some sec => updateSecurityUI sec w3
            | none => w3
          Except.ok (renderDashMarketWidget mkt w4)

end Platform

namespace Platform

open JsNum

/-- One item of the indices or watchlist arrays as `renderMarketStats` reads
it (platform.js:657-659): only `change` is consulted and it may be absent. -/
structure MarketItem where
  change : Option ℚ
deriving Repr, DecidableEq

/-- The two stat values `renderMarketStats` writes into its container. -/
structure MarketStatsView where
  advancers : String
  sentiment : String
deriving Repr, DecidableEq

/-- `Platform.renderMarketStats(indices, watchlist)` (platform.js:653-673):
`[...(indices || []), ...(watchlist || [])]`, advancers are the items with
`(i.change || 0) >= 0`, decliners those with `(i.change || 0) < 0`; the
widget shows `advancers / total` and sentiment `BULLISH` when
`positiveCount >= negativeCount`, else `BEARISH`. -/
def renderMarketStats (indices watchlist : Option (List MarketItem)) : MarketStatsView :=
  let all := (match indices with | none => [] | some l => l)
          ++ (match watchlist with | none => [] | some l => l)
  let positiveCount : ℕ := (all.filter (fun i => jsOr0 i.change ≥ 0)).length
  let negativeCount : ℕ := (all.filter (fun i => jsOr0 i.change < 0)).length
  { advancers := toString positiveCount ++ " / " ++ toString all.length
    sentiment := if positiveCount ≥ negativeCount then "BULLISH" else "BEARISH" }

/-- The stock object handed to `openTradeModal` (platform.js:737, 741):
the search result whose `symbol` and `price` the modal captures. -/
structure Stock where
  symbol : String
  price : ℚ
deriving Repr, DecidableEq

/-- The trade modal as the claims observe it: the captured
`currentTradeSymbol` / `currentTradePrice` / `currentTradeType`
(platform.js:841-843), the quantity input's value, and the displayed
title, price, wallet and total texts. -/
structure TradeModalState where
  currentTradeSymbol : String
  currentTradePrice : ℚ
  currentTradeType : String
  qtyValue : String
  titleText : String
  priceText : String
  walletText : String
  totalText : String
  visible : Bool
deriving Repr, DecidableEq

/-- `Platform.openTradeModal(stock, type)` (platform.js:839-859): captures
the stock's symbol and price and the trade side, resets the quantity input
to `1`, and displays title, price, wallet and an initial total equal to the
captured price. -/
def openTradeModal (stock : Stock) (ttype : String) (userWallet : ℚ) : TradeModalState :=
  { currentTradeSymbol := stock.symbol
    currentTradePrice := stock.price
    currentTradeType := ttype
    qtyValue := "1"
    titleText := (if ttype = "BUY" then "Buy" else "Sell") ++ " " ++ stock.symbol
    priceText := "$" ++ toLocaleStr stock.price
    walletText := "$" ++ toLocaleStr userWallet
    totalText := "$" ++ toLocaleStr stock.price
    visible := true }

/-- The `qtyInput.oninput` handler installed by `setupTradeModal`
(platform.js:796-799): on every change of the quantity input, the total is
recomputed as `(parseFloat(qtyInput.value) || 0) * this.currentTradePrice`
— the price captured when the modal opened, not a re-fetched one — and
displayed with two fraction digits. -/
def onQtyInput (m : TradeModalState) (v : String) : TradeModalState :=
  let q : ℚ := match jsParseFloat v with
    | none => 0
    | some x => x
  let total := q * m.currentTradePrice
  { m with qtyValue := v
           totalText := "$" ++ toLocaleMin2 total }

end Platform

namespace Nexus

/-- `setFlowState` always records the requested state. -/
theorem setFlowState_state (c : Config) (s : FlowState) : (setFlowState c s).state = s := by
  cases s <;> rfl

/-- One animation frame leaves the scheduled-callback queue untouched. -/
theorem animateFrame_pending (st : AnimState) : (animateFrame st).pending = st.pending := by
  unfold animateFrame; split <;> rfl

/-- One animation frame leaves the flow state untouched. -/
theorem animateFrame_state (st : AnimState) :
    (animateFrame st).config.state = st.config.state := by
  unfold animateFrame; split <;> rfl

/-- Frames leave the scheduled-callback queue untouched. -/
theorem framesN_pending (st : AnimState) (k : ℕ) : (framesN st k).pending = st.pending := by
  induction k generalizing st with
  | zero => rfl
  | succ k ih => rw [framesN, ih, animateFrame_pending]

/-- Frames leave the flow state untouched. -/
theorem framesN_state (st : AnimState) (k : ℕ) :
    (framesN st k).config.state = st.config.state := by
  induction k generalizing st with
  | zero => rfl
  | succ k ih => rw [framesN, ih, animateFrame_state]

end Nexus

namespace JsNum

/-- Evaluation: `String(5)` is `"5"`. -/
theorem qToStr_five : qToStr 5 = "5" := by
  unfold qToStr; norm_num; decide

/-- Evaluation: `String(0)` is `"0"`. -/
theorem qToStr_zero : qToStr 0 = "0" := by
  unfold qToStr; norm_num; decide

/-- Evaluation: `(100).toFixed(2)` is `"100.00"`. -/
theorem fixed2_hundred : formatFixed2 100 = "100.00" := by
  unfold formatFixed2; norm_num; decide

/-- Evaluation: `parseFloat("3")` is `3`. -/
theorem jsParseFloat_three : jsParseFloat "3" = some 3 := by
  rw [show jsParseFloat "3" = some ((1:ℚ) * ((3:ℕ) : ℚ)) from rfl]
  norm_num

/-- Evaluation: `(450).toLocaleString(undefined, {minimumFractionDigits: 2})`
is `"450.00"`. -/
theorem toLocaleMin2_450 : toLocaleMin2 450 = "450.00" := by
  unfold toLocaleMin2; norm_num; decide

end JsNum

namespace Nexus

/-- The flow state reached by a `market_update` event: `processing` iff the
volatility payload exceeds 2, otherwise `idle` (animation.js:97-101). -/
theorem onEvent_market_state (st : AnimState) (t : ℕ) (v : ℚ) :
    (onEvent st t EventKind.market_update ⟨some v⟩).config.state
      = if v > 2 then FlowState.processing else FlowState.idle := by
  unfold onEvent jsGTq
  by_cases h : v > 2 <;> simp [h, setFlowState_state]

end Nexus

/-- C1 counterexample: a 2xx response whose JSON body embeds an
application-level `{error: ...}` field is not converted to a logged null at
the `fetchApi` boundary — the parsed body is returned to the caller and no
failure is logged — so this failure class is not handled like the other
three, contrary to the claim. -/
theorem c1_counterexample :
    Platform.fetchApi
        (Platform.FetchAttempt.http true (some (Platform.Body.withError "symbol not found")))
      = (some (Platform.Body.withError "symbol not found"), false)
    ∧ (some (Platform.Body.withError "symbol not found"), false)
      ≠ ((none : Option Platform.Body), true) := by
  exact ⟨rfl, by decide⟩

/-- C1 (amended): `fetchApi` never raises past its boundary (it is a total
function into plain results: every call yields either a logged null or an
unlogged body), and the first three failure classes — transport failure,
non-2xx status, malformed JSON body — each yield a logged null; a 2xx
response whose body parses, including one embedding an application-level
error, is returned unchanged and unlogged, left for the caller to check. -/
theorem c1_fetch_boundary :
    Platform.fetchApi Platform.FetchAttempt.transportFailure = (none, true)
    ∧ (∀ b, Platform.fetchApi (Platform.FetchAttempt.http false b) = (none, true))
    ∧ Platform.fetchApi (Platform.FetchAttempt.http true none) = (none, true)
    ∧ (∀ b, Platform.fetchApi (Platform.FetchAttempt.http true (some b)) = (some b, false))
    ∧ (∀ a, Platform.fetchApi a = (none, true) ∨ ∃ b, Platform.fetchApi a = (some b, false)) := by
  refine ⟨rfl, fun b => rfl, rfl, fun b => rfl, fun a => ?_⟩
  match a with
  | Platform.FetchAttempt.transportFailure => exact Or.inl rfl
  | Platform.FetchAttempt.http false b => exact Or.inl rfl
  | Platform.FetchAttempt.http true none => exact Or.inl rfl
  | Platform.FetchAttempt.http true (some b) => exact Or.inr ⟨b, rfl⟩

/-- C2: a heartbeat cycle whose fetch resolved to null is skipped silently —
the world (all previously rendered values, the write log, and the raised-event
log) is returned unchanged with no exception — a run of ticks starting with a
failed cycle behaves exactly like the run without it (the next tick simply
retries), and the `refresh` notification that `fetchApi` fires on entry
matches no case of the sink's switch, so the sink state is also untouched. -/
theorem c2_failed_cycle_silent :
    (∀ w, Platform.updateHeartbeat none w = Except.ok w)
    ∧ (∀ rest w, Platform.heartbeatRun (none :: rest) w = Platform.heartbeatRun rest w)
    ∧ (∀ st t d, Nexus.onEvent st t Nexus.EventKind.refresh d = st) := by
  exact ⟨fun w => rfl, fun rest w => rfl, fun st t d => rfl⟩

/-- C4: a `market_update` event with volatility payload `v` drives the flow
state to `processing` iff `v > 2` and to `idle` iff `v ≤ 2`; the payload
built by the platform is `Math.abs(change_percent)`; and on the inputs
`[0, 1.5, 2.0, 2.1, 5]` exactly the last two yield `processing`, with the
boundary value 2.0 yielding `idle`. -/
theorem c4_volatility_threshold :
    (∀ (st : Nexus.AnimState) (t : ℕ) (v : ℚ),
      ((Nexus.onEvent st t Nexus.EventKind.market_update ⟨some v⟩).config.state
          = Nexus.FlowState.processing ↔ v > 2)
      ∧ ((Nexus.onEvent st t Nexus.EventKind.market_update ⟨some v⟩).config.state
          = Nexus.FlowState.idle ↔ ¬ v > 2))
    ∧ (∀ (st : Nexus.AnimState) (t : ℕ) (cp : ℚ),
      ((Nexus.onEvent st t Nexus.EventKind.market_update ⟨some |cp|⟩).config.state
          = Nexus.FlowState.processing ↔ |cp| > 2))
    ∧ ([(0:ℚ), 3/2, 2, 21/10, 5].map (fun v =>
        (Nexus.onEvent Nexus.initAnimState 0 Nexus.EventKind.market_update ⟨some v⟩).config.state)
      = [Nexus.FlowState.idle, Nexus.FlowState.idle, Nexus.FlowState.idle,
         Nexus.FlowState.processing, Nexus.FlowState.processing]) := by
  refine ⟨fun st t v => ?_, fun st t cp => ?_, ?_⟩
  · rw [Nexus.onEvent_market_state]
    by_cases h : v > 2 <;> simp [h]
  · rw [Nexus.onEvent_market_state]
    by_cases h : |cp| > 2 <;> simp [h]
  · norm_num [Nexus.onEvent_market_state]

/-- C5: with no new pulse, a positive pulse intensity is multiplied by 0.95
(hence strictly decreases) on each animation frame; `triggerPulse(n)`
overwrites the intensity with `n` (in particular when `n` exceeds the
current decayed value — values are replaced, never summed); and after
`triggerPulse(20)` followed by 10 frames the intensity is exactly
20 × 0.95¹⁰, which is within 0.01 of 11.97. -/
theorem c5_pulse_decay :
    (∀ st : Nexus.AnimState, st.config.pulseIntensity > 0 →
        (Nexus.animateFrame st).config.pulseIntensity = st.config.pulseIntensity * (19/20)
        ∧ (Nexus.animateFrame st).config.pulseIntensity < st.config.pulseIntensity)
    ∧ (∀ (st : Nexus.AnimState) (t : ℕ) (n : ℚ),
        n > st.config.pulseIntensity →
        (Nexus.triggerPulse st t n).config.pulseIntensity = n)
    ∧ (Nexus.framesN (Nexus.triggerPulse Nexus.initAnimState 0 20) 10).config.pulseIntensity
        = 20 * (19/20)^10
    ∧ |(Nexus.framesN (Nexus.triggerPulse Nexus.initAnimState 0 20) 10).config.pulseIntensity
        - 1197/100| < 1/100 := by
  refine ⟨fun st h => ?_, fun st t n _ => rfl, ?_, ?_⟩
  · have he : (Nexus.animateFrame st).config.pulseIntensity
        = st.config.pulseIntensity * (19/20) := by
      unfold Nexus.animateFrame; rw [if_pos h]
    refine ⟨he, ?_⟩
    rw [he]
    nlinarith [h]
  · norm_num [Nexus.framesN, Nexus.animateFrame, Nexus.triggerPulse, Nexus.initAnimState]
  · norm_num [Nexus.framesN, Nexus.animateFrame, Nexus.triggerPulse, Nexus.initAnimState, abs]

/-- C5 witness: the decay and replacement facts applied at the concrete
intensity 20 from the constructor state. -/
theorem c5_witness :
    (Nexus.animateFrame (Nexus.triggerPulse Nexus.initAnimState 0 20)).config.pulseIntensity
      = 20 * (19/20)
    ∧ (Nexus.triggerPulse Nexus.initAnimState 0 20).config.pulseIntensity = 20 := by
  constructor
  · have h := (c5_pulse_decay.1 (Nexus.triggerPulse Nexus.initAnimState 0 20)
      (by rw [show (Nexus.triggerPulse Nexus.initAnimState 0 20).config.pulseIntensity
                = (20:ℚ) from rfl]; norm_num)).1
    rw [h, show (Nexus.triggerPulse Nexus.initAnimState 0 20).config.pulseIntensity
          = (20:ℚ) from rfl]
  · exact c5_pulse_decay.2.1 Nexus.initAnimState 0 20
      (by rw [show Nexus.initAnimState.config.pulseIntensity = (0:ℚ) from rfl]; norm_num)

/-- C6: a `low_stock` event sets the flow state to `alert` synchronously
within the handler and schedules a revert for exactly 5000 ms later; from
the constructor state, any number of animation frames followed by the event
loop reaching any time strictly before `t + 5000` still shows `alert`,
while reaching `t + 5000` runs the scheduled callback and shows `idle`. -/
theorem c6_low_stock_alert :
    (∀ (st : Nexus.AnimState) (t : ℕ) (d : Nexus.EventData),
        (Nexus.onEvent st t Nexus.EventKind.low_stock d).config.state = Nexus.FlowState.alert)
    ∧ (∀ (st : Nexus.AnimState) (t : ℕ) (d : Nexus.EventData),
        (t + 5000, Nexus.PendingAction.setFlow Nexus.FlowState.idle)
          ∈ (Nexus.onEvent st t Nexus.EventKind.low_stock d).pending)
    ∧ (∀ (t k now : ℕ) (d : Nexus.EventData), now < t + 5000 →
        (Nexus.fireDue
            (Nexus.framesN (Nexus.onEvent Nexus.initAnimState t Nexus.EventKind.low_stock d) k)
            now).config.state
          = Nexus.FlowState.alert)
    ∧ (∀ (t k : ℕ) (d : Nexus.EventData),
        (Nexus.fireDue
            (Nexus.framesN (Nexus.onEvent Nexus.initAnimState t Nexus.EventKind.low_stock d) k)
            (t + 5000)).config.state
          = Nexus.FlowState.idle) := by
  have hpend : ∀ (t k : ℕ) (d : Nexus.EventData),
      (Nexus.framesN (Nexus.onEvent Nexus.initAnimState t Nexus.EventKind.low_stock d) k).pending
        = [(t + 5000, Nexus.PendingAction.setFlow Nexus.FlowState.idle)] := by
    intro t k d
    rw [Nexus.framesN_pending]
    simp [Nexus.onEvent, Nexus.initAnimState]
  have hstate : ∀ (t k : ℕ) (d : Nexus.EventData),
      (Nexus.framesN (Nexus.onEvent Nexus.initAnimState t Nexus.EventKind.low_stock d) k).config.state
        = Nexus.FlowState.alert := by
    intro t k d
    rw [Nexus.framesN_state]
    exact Nexus.setFlowState_state _ _
  refine ⟨fun st t d => Nexus.setFlowState_state st.config _, fun st t d => ?_, ?_, ?_⟩
  · simp [Nexus.onEvent]
  · intro t k now d h
    have hlt : ¬ (t + 5000 ≤ now) := by omega
    simp only [Nexus.fireDue, hpend]
    simp [hlt, hstate t k d]
  · intro t k d
    simp only [Nexus.fireDue, hpend]
    simp [Nexus.firePending, Nexus.setFlowState_state]

/-- C6 witness: the timing facts at `t = 0` with the empty payload: the
state is `alert` immediately, stays `alert` when the loop has reached
time 4999, and is `idle` once the loop reaches time 5000. -/
theorem c6_witness :
    (Nexus.onEvent Nexus.initAnimState 0 Nexus.EventKind.low_stock ⟨none⟩).config.state
      = Nexus.FlowState.alert
    ∧ (Nexus.fireDue
        (Nexus.framesN (Nexus.onEvent Nexus.initAnimState 0 Nexus.EventKind.low_stock ⟨none⟩) 3)
        4999).config.state = Nexus.FlowState.alert
    ∧ (Nexus.fireDue
        (Nexus.framesN (Nexus.onEvent Nexus.initAnimState 0 Nexus.EventKind.low_stock ⟨none⟩) 3)
        5000).config.state = Nexus.FlowState.idle := by
  refine ⟨c6_low_stock_alert.1 Nexus.initAnimState 0 ⟨none⟩,
    c6_low_stock_alert.2.2.1 0 3 4999 ⟨none⟩ (by omega), ?_⟩
  have h := c6_low_stock_alert.2.2.2 0 3 ⟨none⟩
  simpa using h

/-- A dashboard page in its template state: three `.stat-value` elements,
all regions empty, the dropdown holding only its default option, nothing
logged. -/
def baseWorld : Platform.World :=
  { totalProducts := { text := "", changed := false }
    lowStock := { text := "", changed := false }
    todayRevenue := { text := "", changed := false }
    marketValue := ""
    marketSub := ""
    recentSales := ""
    lastUpdated := ""
    statValuesCount := 3
    globalPulse := ""
    securityBadge := ""
    productSelect := { options := [""], value := "" }
    salesTableHtml := ""
    salesRowCount := 0
    marketStatsHtml := ""
    writes := []
    events := [] }

/-- A summary snapshot with full stats and an empty recent-sales array. -/
def c3Data : Platform.DashboardData :=
  { total_products := some 5, low_stock := some 0, today_revenue := some 100
    recent_sales := some [], global_market := none, security := none }

/-- A dashboard world whose recent-sales region already displays exactly
the string `renderDashboard` computes for `c3Data` — the rendered-string
projection of the region is identical before and after. -/
def c3Displayed : Platform.World :=
  { baseWorld with recentSales := Platform.dashSalesHtml [] }

/-- C3 counterexample: rendering a snapshot whose computed recent-sales
string equals the one already displayed, `renderDashboard` still assigns
`innerHTML` for that region (the write is logged), so not every renderer
compares the new display string with the current one before touching the
DOM — `renderDashboard` writes unconditionally. -/
theorem c3_counterexample :
    c3Displayed.recentSales = Platform.dashSalesHtml []
    ∧ (match Platform.renderDashboard c3Data none c3Displayed with
        | Except.ok w =>
            w.recentSales = c3Displayed.recentSales
            ∧ ("recent-sales-tbody", c3Displayed.recentSales) ∈ w.writes
        | Except.error _ => False) := by
  refine ⟨rfl, ?_⟩
  norm_num [Platform.renderDashboard, c3Data, c3Displayed, baseWorld,
    Platform.dashSalesHtml, Platform.renderDashMarketWidget,
    JsNum.jsDisplay, JsNum.qToStr_five, JsNum.qToStr_zero, JsNum.fixed2_hundred,
    Nexus.jsGTq]

/-- C3 (amended): `renderRecentSalesMini` compares the trimmed new HTML
with the current one and skips the DOM when they match; `renderStats`
skips a field's write exactly when the loose test `el.textContent != val`
fails — for numeric stats that are present this means the displayed text
denotes the same number, so re-rendering a fully-present, value-identical
snapshot leaves the world untouched (no write, no `value-update` marker,
no event) — but a missing `total_products` is rewritten as `"undefined"`
and re-marked `changed` on every cycle, whatever is displayed, and
`renderDashboard` (see the counterexample) writes unconditionally. -/
theorem c3_compare_before_write :
    (∀ (s : Platform.Stats) (p l r : ℚ) (w : Platform.World),
        s.total_products = some p → s.low_stock = some l → s.today_revenue = some r →
        JsNum.jsToNumber w.totalProducts.text = some p →
        JsNum.jsToNumber w.lowStock.text = some l →
        w.todayRevenue.text = "$" ++ JsNum.formatFixed2 r →
        Platform.renderStats (some s) w = Except.ok w)
    ∧ (∀ (s : Platform.Stats) (l r : ℚ) (w : Platform.World),
        s.total_products = none → s.low_stock = some l → s.today_revenue = some r →
        w.totalProducts.text = "undefined" →
        JsNum.jsToNumber w.lowStock.text = some l →
        w.todayRevenue.text = "$" ++ JsNum.formatFixed2 r →
        Platform.renderStats (some s) w
          = Except.ok { w with
              totalProducts := { text := "undefined", changed := true }
              writes := w.writes ++ [("total-products", "undefined")] })
    ∧ (∀ (rows : List Platform.SaleRow) (w : Platform.World),
        w.recentSales.trim = (Platform.miniHtml rows).trim →
        Platform.renderRecentSalesMini (some rows) w = Except.ok w) := by
  refine ⟨?_, ?_, ?_⟩
  · intro s p l r w hp hl hrev h1 h2 h3
    simp [Platform.renderStats, Platform.jsLooseNe, Platform.elsValStr,
      hp, hl, hrev, h1, h2, h3]
  · intro s l r w hp hl hrev h4 h5 h6
    simp [Platform.renderStats, Platform.jsLooseNe, Platform.elsValStr, JsNum.jsDisplay,
      hp, hl, hrev, h4, h5, h6]
  · intro rows w h
    simp [Platform.renderRecentSalesMini, h]

/-- A world already displaying the projection of the stats snapshot
`{total_products: 5, low_stock: 0, today_revenue: 100}` and an empty
recent-sales list. -/
def c3WitnessWorld : Platform.World :=
  { baseWorld with
      totalProducts := { text := "5", changed := false }
      lowStock := { text := "0", changed := false }
      todayRevenue := { text := "$100.00", changed := false }
      recentSales := Platform.noRecentSalesHtml }

/-- The witness world with `"undefined"` already displayed in the
total-products slot. -/
def c3UndefWorld : Platform.World :=
  { c3WitnessWorld with totalProducts := { text := "undefined", changed := false } }

/-- C3 witness: the skip, the forced rewrite of a missing field despite
`"undefined"` being displayed already, and the HTML comparison, each applied
at a concrete snapshot and matching world. -/
theorem c3_witness :
    Platform.renderStats (some ⟨some 5, some 0, some 100⟩) c3WitnessWorld
      = Except.ok c3WitnessWorld
    ∧ Platform.renderStats (some ⟨none, some 0, some 100⟩) c3UndefWorld
        = Except.ok { c3UndefWorld with
            totalProducts := { text := "undefined", changed := true }
            writes := c3UndefWorld.writes ++ [("total-products", "undefined")] }
    ∧ Platform.renderRecentSalesMini (some []) c3WitnessWorld = Except.ok c3WitnessWorld := by
  refine ⟨?_, ?_, c3_compare_before_write.2.2 [] c3WitnessWorld rfl⟩
  · exact c3_compare_before_write.1 ⟨some 5, some 0, some 100⟩ 5 0 100 c3WitnessWorld
      rfl rfl rfl
      (by rw [show JsNum.jsToNumber c3WitnessWorld.totalProducts.text
                = some ((1:ℚ) * ((5:ℕ) : ℚ)) from rfl]; norm_num)
      (by rw [show JsNum.jsToNumber c3WitnessWorld.lowStock.text
                = some ((1:ℚ) * ((0:ℕ) : ℚ)) from rfl]; norm_num)
      (by rw [JsNum.fixed2_hundred]; rfl)
  · exact c3_compare_before_write.2.1 ⟨none, some 0, some 100⟩ 0 100 c3UndefWorld
      rfl rfl rfl rfl
      (by rw [show JsNum.jsToNumber c3UndefWorld.lowStock.text
                = some ((1:ℚ) * ((0:ℕ) : ℚ)) from rfl]; norm_num)
      (by rw [JsNum.fixed2_hundred]; rfl)

/-- C7 counterexample: `renderStats` applied to a stats region that is
present but lacks `today_revenue` does not render a placeholder — it raises
`TypeError` (at `stats.today_revenue.toFixed(2)`), contrary to the claim
that every renderer tolerates partial fields without throwing. -/
theorem c7_counterexample :
    Platform.renderStats (some ⟨some 5, some 1, none⟩) baseWorld
      = Except.error ("TypeError", baseWorld) := rfl

/-- C7 (amended): the renderers substitute placeholder rows only for
present-but-empty arrays (`No recent sales`, `No transactions found`);
a missing `stats` object, a missing `today_revenue`, or a missing
`products`/`transactions`/`recent_sales` array makes the renderer raise
`TypeError` instead of rendering a placeholder. -/
theorem c7_partial_fields :
    (∀ w, Platform.renderStats none w = Except.error ("TypeError", w))
    ∧ (∀ (w : Platform.World) (a b : Option ℚ),
        Platform.renderStats (some ⟨a, b, none⟩) w = Except.error ("TypeError", w))
    ∧ (∀ (w : Platform.World) (t : Option (List Platform.Txn)),
        Platform.renderSales ⟨none, t⟩ w = Except.error ("TypeError", w))
    ∧ (∀ (w : Platform.World) (p : List Platform.Product),
        ∃ w1, Platform.renderSales ⟨some p, none⟩ w = Except.error ("TypeError", w1))
    ∧ (∀ (w : Platform.World) (a b : Option ℚ) (rs : Option (List Platform.SaleRow))
        (gm : Option (List Platform.PulseItem)) (sec : Option Platform.SecurityInfo)
        (mkt : Option Platform.MarketSearch),
        3 ≤ w.statValuesCount →
        ∃ w1, Platform.renderDashboard ⟨a, b, none, rs, gm, sec⟩ mkt w
          = Except.error ("TypeError", w1))
    ∧ (∀ (w : Platform.World), ∃ w',
        Platform.renderRecentSalesMini (some []) w = Except.ok w'
        ∧ w'.recentSales.trim = Platform.noRecentSalesHtml.trim)
    ∧ (∀ (w : Platform.World), ∃ w',
        Platform.renderSales ⟨some [], some []⟩ w = Except.ok w'
        ∧ w'.salesTableHtml = Platform.noTransactionsHtml) := by
  refine ⟨fun w => rfl, fun w a b => rfl, fun w t => rfl, fun w p => ⟨_, rfl⟩,
    ?_, ?_, ?_⟩
  · intro w a b rs gm sec mkt h
    unfold Platform.renderDashboard
    rw [if_pos h]
    exact ⟨_, rfl⟩
  · intro w
    have hm : Platform.miniHtml [] = Platform.noRecentSalesHtml := rfl
    by_cases h : w.recentSales.trim = Platform.noRecentSalesHtml.trim
    · refine ⟨w, ?_, h⟩
      simp [Platform.renderRecentSalesMini, hm, h]
    · refine ⟨{ w with recentSales := Platform.noRecentSalesHtml, writes := w.writes ++ [("recent-sales-tbody", Platform.noRecentSalesHtml)] }, ?_, rfl⟩
      simp [Platform.renderRecentSalesMini, hm, h]
  · intro w
    refine ⟨_, rfl, ?_⟩
    simp [Platform.renderSales, String.join]

/-- C7 witness: the throwing and placeholder facts applied to the template
dashboard world (which has its three stat elements). -/
theorem c7_witness :
    (∃ w1, Platform.renderDashboard ⟨none, none, none, none, none, none⟩ none baseWorld
        = Except.error ("TypeError", w1))
    ∧ (∃ w', Platform.renderRecentSalesMini (some []) baseWorld = Except.ok w'
        ∧ w'.recentSales.trim = Platform.noRecentSalesHtml.trim) := by
  exact ⟨c7_partial_fields.2.2.2.2.1 baseWorld none none none none none none (by decide),
    c7_partial_fields.2.2.2.2.2.1 baseWorld⟩

/-- C8: whenever `renderSales` re-renders the product dropdown and the
currently selected value is among the option values produced from the new
snapshot (the default empty option plus one option per product id), the
selection is preserved across the re-render. -/
theorem c8_dropdown_preserved :
    ∀ (prods : List Platform.Product) (txns : List Platform.Txn) (w : Platform.World),
      w.productSelect.value ∈ ("" :: prods.map (fun p => p.pid)) →
      ∃ w', Platform.renderSales ⟨some prods, some txns⟩ w = Except.ok w'
        ∧ w'.productSelect.value = w.productSelect.value
        ∧ w'.productSelect.options = "" :: prods.map (fun p => p.pid) := by
  intro prods txns w hmem
  by_cases hcs : w.productSelect.value = "" <;>
    by_cases hlen : txns.length > w.salesRowCount <;>
      refine ⟨_, rfl, ?_, ?_⟩ <;>
        simp [Platform.renderSales, Platform.selectSetValue, hcs, hlen, hmem]

/-- A one-product snapshot whose id is the currently selected value. -/
def c8Prods : List Platform.Product :=
  [{ pid := "p1", name := "Widget", price := 5, quantity := 2 }]

/-- A sales page with `p1` currently selected in the dropdown. -/
def c8World : Platform.World :=
  { baseWorld with productSelect := { options := ["", "p1"], value := "p1" } }

/-- C8 witness: the preservation fact at a concrete snapshot that still
contains the selected product. -/
theorem c8_witness :
    ∃ w', Platform.renderSales ⟨some c8Prods, some []⟩ c8World = Except.ok w'
      ∧ w'.productSelect.value = c8World.productSelect.value
      ∧ w'.productSelect.options = "" :: c8Prods.map (fun p => p.pid) :=
  c8_dropdown_preserved c8Prods [] c8World
    (by simp [c8World, c8Prods, baseWorld])

/-- C9: opening the trade modal on `{symbol: "AAPL", price: 150}` and
entering quantity `3` displays the total `$450.00`; over any sequence of
quantity edits the captured `currentTradePrice` never changes from the
price the modal was opened with, and every edit recomputes the displayed
total as the parsed quantity times that captured price. -/
theorem c9_trade_total :
    (Platform.onQtyInput (Platform.openTradeModal ⟨"AAPL", 150⟩ "BUY" 10000) "3").totalText
      = "$450.00"
    ∧ (∀ (stock : Platform.Stock) (ttype : String) (uw : ℚ) (inputs : List String),
        (inputs.foldl Platform.onQtyInput
            (Platform.openTradeModal stock ttype uw)).currentTradePrice
          = stock.price)
    ∧ (∀ (m : Platform.TradeModalState) (v : String),
        (Platform.onQtyInput m v).totalText
          = "$" ++ JsNum.toLocaleMin2 ((match JsNum.jsParseFloat v with
              | none => 0
              | some x => x) * m.currentTradePrice)) := by
  refine ⟨?_, ?_, fun m v => rfl⟩
  · have hp : JsNum.jsParseFloat "3" = some ((1:ℚ) * ((3:ℕ) : ℚ)) := rfl
    simp only [Platform.onQtyInput, Platform.openTradeModal, hp]
    norm_num
    rw [JsNum.toLocaleMin2_450]
    rfl
  · intro stock ttype uw inputs
    have haux : ∀ (l : List String) (m : Platform.TradeModalState),
        (l.foldl Platform.onQtyInput m).currentTradePrice = m.currentTradePrice := by
      intro l
      induction l with
      | nil => intro m; rfl
      | cons v l ih => intro m; rw [List.foldl_cons, ih]; rfl
    rw [haux]
    rfl

/-- C10: the market sentiment is `BULLISH` exactly when the number of items
(indices and watchlist combined, a missing `change` counting as 0) with
`change ≥ 0` is at least the number with `change < 0`; an item with change
exactly 0, or with no change field, counts as an advancer; and two absent
lists display `0 / 0` with sentiment `BULLISH`. -/
theorem c10_market_sentiment :
    (∀ (indices watchlist : Option (List Platform.MarketItem)),
      ((Platform.renderMarketStats indices watchlist).sentiment = "BULLISH"
        ↔ (((match indices with | none => [] | some l => l)
            ++ (match watchlist with | none => [] | some l => l)).filter
              (fun i : Platform.MarketItem => JsNum.jsOr0 i.change ≥ 0)).length
           ≥ (((match indices with | none => [] | some l => l)
            ++ (match watchlist with | none => [] | some l => l)).filter
              (fun i : Platform.MarketItem => JsNum.jsOr0 i.change < 0)).length))
    ∧ Platform.renderMarketStats none none
        = { advancers := "0 / 0", sentiment := "BULLISH" }
    ∧ Platform.renderMarketStats (some [{ change := some 0 }]) none
        = { advancers := "1 / 1", sentiment := "BULLISH" }
    ∧ Platform.renderMarketStats (some [{ change := none }]) none
        = { advancers := "1 / 1", sentiment := "BULLISH" } := by
  refine ⟨?_, ?_, ?_, ?_⟩
  · intro indices watchlist
    simp only [Platform.renderMarketStats]
    split <;> rename_i h
    · exact iff_of_true rfl h
    · exact iff_of_false (by decide) h
  · simp [Platform.renderMarketStats]
    decide
  · norm_num [Platform.renderMarketStats, JsNum.jsOr0, List.filter]
    decide
  · norm_num [Platform.renderMarketStats, JsNum.jsOr0, List.filter]
    decide
